import Mathlib

/-!
Verification of the sc-detect scoring engine.

This file gives a shallow embedding, in Lean 4, of the scoring core of the
sc-detect library: the tokenizer and normalizer (js/tokenizer.ts), the
token-sequence comparison primitives, the AI-signature heuristic (js/ai.ts),
and the per-field watchdog state machine (js/watchdog.ts), together with
theorems settling a list of claims about that code.

Modelling conventions:
- JavaScript numbers are modelled by `ℚ` (exact arithmetic); `Date` values by
  their millisecond timestamp, also as `ℚ`.
- A JavaScript division whose denominator can be zero produces `NaN`; where the
  code can actually reach such a division we model the result as `Option ℚ`
  with `none` standing for `NaN` (see `tokenSimilarityCompare`).  Where the
  surrounding code guards the denominator, a plain `ℚ` division is used.
- Strings are processed as their character lists (`String.data`); `text.length`
  is modelled as the character count.
- Thrown JavaScript exceptions are modelled with `Except`.
-/

/-- The JavaScript whitespace characters (`/\s/`) that can realistically occur
in the monitored text; used by `simpleTokenizer` (tokenizer.ts line 95). -/
def isWhitespaceJS (c : Char) : Bool :=
  c = ' ' || c = '\t' || c = '\n' || c = '\r' || c = '\x0b' || c = '\x0c' || c = ' '

/-- The fixed punctuation set `/[.,!?;:()]/` of `simpleTokenizer`
(tokenizer.ts line 100). -/
def isPunctJS (c : Char) : Bool :=
  c = '.' || c = ',' || c = '!' || c = '?' || c = ';' || c = ':' || c = '(' || c = ')'

/-- The character-scanning segmentation loop of `simpleTokenizer`
(tokenizer.ts lines 89-113): whitespace ends the current token, punctuation
ends the current token and is emitted as a one-character token, all other
characters accumulate.  `cur` holds the current token reversed. -/
def segmentChars (cur : List Char) : List Char → List (List Char)
  | [] => if cur.isEmpty then [] else [cur.reverse]
  | c :: rest =>
    if isWhitespaceJS c then
      (if cur.isEmpty then [] else [cur.reverse]) ++ segmentChars [] rest
    else if isPunctJS c then
      (if cur.isEmpty then [] else [cur.reverse]) ++ ([c] :: segmentChars [] rest)
    else segmentChars (c :: cur) rest

/-- JavaScript `toLowerCase` restricted to the character ranges relevant to the
tokenizer: ASCII letters and the accented letters the normalizer folds. -/
def jsCharToLower (c : Char) : Char :=
  if 'A' ≤ c && c ≤ 'Z' then Char.ofNat (c.toNat + 32)
  else if c = 'Á' then 'á' else if c = 'É' then 'é' else if c = 'Í' then 'í'
  else if c = 'Ó' then 'ó' else if c = 'Ú' then 'ú' else if c = 'Ñ' then 'ñ'
  else if c = 'Ä' then 'ä' else if c = 'Ö' then 'ö' else if c = 'Ü' then 'ü'
  else c

/-- The accent-folding map of `normalizeToken` (tokenizer.ts lines 127-137,
the regex replace on line 159): lowercase accented vowels and ñ fold to their
unaccented base letter; every other character is untouched. -/
def accentFold (c : Char) : Char :=
  if c = 'á' then 'a' else if c = 'é' then 'e' else if c = 'í' then 'i'
  else if c = 'ó' then 'o' else if c = 'ú' then 'u' else if c = 'ñ' then 'n'
  else if c = 'ä' then 'a' else if c = 'ö' then 'o' else if c = 'ü' then 'u'
  else c

/-- JavaScript `String.prototype.replace` with a string pattern and an empty
replacement: removes the first occurrence of `pat`, leaves the string unchanged
when `pat` does not occur. -/
def removeFirstOccurrence : List Char → List Char → List Char
  | [], _ => []
  | c :: rest, pat =>
    if pat.isPrefixOf (c :: rest) then (c :: rest).drop pat.length
    else c :: removeFirstOccurrence rest pat

/-- The ordered common-prefix list of `normalizeToken` (tokenizer.ts line 140). -/
def commonPrefixList : List (List Char) :=
  ["un", "re", "in", "im", "dis", "en", "non", "non-", "pre", "pre-", "mis", "sub",
   "inter", "fore", "de", "trans", "super", "semi", "anti", "mid", "under"].map String.data

/-- The ordered common-suffix list of `normalizeToken` (tokenizer.ts line 141). -/
def commonSuffixList : List (List Char) :=
  ["s", "es", "ed", "ing", "ly", "er", "or", "ion", "tion", "ation", "ity", "ment",
   "ness", "ful", "less", "est", "ive", "y", "ize", "ise", "ify", "en", "ssa", "lla",
   "aa"].map String.data

/-- `normalizeToken` (tokenizer.ts lines 126-160) on character lists.  Note the
order of operations in the source: the first matching prefix is removed (via
`String.replace`, i.e. first occurrence — for a `startsWith` match this is the
front), then the first matching suffix is removed (again via `String.replace`,
i.e. the FIRST occurrence of the suffix substring, which need not be the
trailing one), and only then the token is lower-cased and accent-folded. -/
def normalizeTokenChars (token : List Char) : List Char :=
  let afterPrefixStrip :=
    match commonPrefixList.find? (fun p => p.isPrefixOf token) with
    | some p => removeFirstOccurrence token p
    | none => token
  let afterSuffixStrip :=
    match commonSuffixList.find? (fun p => p.isSuffixOf afterPrefixStrip) with
    | some p => removeFirstOccurrence afterPrefixStrip p
    | none => afterPrefixStrip
  (afterSuffixStrip.map jsCharToLower).map accentFold

/-- `normalizeToken` on strings. -/
def normalizeToken (token : String) : String :=
  String.mk (normalizeTokenChars token.data)

/-- `simpleTokenizer` (tokenizer.ts lines 79-123).  The 60-second memoization
cache of the source is functionally transparent (it returns the previously
computed token list for the same input string), so the model is the pure
function: segment, normalize each token, drop tokens that normalize to empty. -/
def simpleTokenizer (input : String) : List String :=
  (((segmentChars [] input.data).map (fun t => normalizeToken (String.mk t)))).filter
    (fun t => t.length > 0)

/-- `tokenSimilarityCompare` (tokenizer.ts lines 168-176): Jaccard index of the
two token sets.  The source divides `intersection.size / union.size` with no
guard; when both token lists are empty this is JavaScript `0/0 = NaN`, which we
model as `none`. -/
def tokenSimilarityCompare (tokensA tokensB : List String) : Option ℚ :=
  let interSize := ((tokensA.dedup).filter (fun x => tokensB.contains x)).length
  let unionSize := ((tokensA ++ tokensB).dedup).length
  if unionSize = 0 then none else some ((interSize : ℚ) / (unionSize : ℚ))

/-- `tokenContainmentCompare` (tokenizer.ts lines 183-190): the fraction of the
distinct tokens of `tokensContained` that also occur in `tokensContainer`.
The source divides by `setContained.size` unguarded; its only caller
(watchdog.ts line 337) checks `tokens.length` first, so the denominator is
never zero on reachable inputs (Lean's `x / 0 = 0` is used for the dead case). -/
def tokenContainmentCompare (tokensContainer tokensContained : List String) : ℚ :=
  let interSize := ((tokensContained.dedup).filter (fun x => tokensContainer.contains x)).length
  (interSize : ℚ) / ((tokensContained.dedup).length : ℚ)

/-- JavaScript array indexing with an `Int` index: `l[idx]` is `undefined`
(here `none`) outside the range `[0, l.length)`. -/
def listAtZ (l : List String) (idx : ℤ) : Option String :=
  if idx < 0 then none else l.get? idx.toNat

/-- The weight `1 - (Math.abs(k) / tokensContained.length)` given to offset
`k = m - i` in the alignment window of `tokenIncludesScore`
(tokenizer.ts line 212). -/
def includesWeight (n : Nat) (i m : Nat) : ℚ :=
  1 - ((((m : ℤ) - (i : ℤ)).natAbs : ℚ)) / (n : ℚ)

/-- The `matchMax` accumulator of `tokenIncludesScore` (tokenizer.ts lines
208-213): the maximum possible alignment score, the sum of the offset weights
over the whole window. -/
def includesMatchMax (contained : List String) (i : Nat) : ℚ :=
  ((List.range contained.length).map (fun m => includesWeight contained.length i m)).sum

/-- The `matchLength` accumulator of `tokenIncludesScore` (tokenizer.ts lines
207-217): the achieved alignment score at container position `j`, summing the
weight of every offset at which the container token equals the contained token
(out-of-range container positions count as mismatches). -/
def includesMatchLength (container contained : List String) (i j : Nat) : ℚ :=
  ((List.range contained.length).map (fun (m : Nat) =>
    if listAtZ container ((j : ℤ) + (m : ℤ) - (i : ℤ)) = listAtZ contained (m : ℤ) then
      includesWeight contained.length i m
    else 0)).sum

/-- `thisTokenScoreAtThisLocation` of `tokenIncludesScore` (tokenizer.ts line
220): achieved over maximum alignment score for contained index `i` aligned at
container index `j`. -/
def includesLocationScore (container contained : List String) (i j : Nat) : ℚ :=
  includesMatchLength container contained i j / includesMatchMax contained i

/-- `thisTokenMaxScoreSoFar` at the end of the inner `j` loop of
`tokenIncludesScore` (tokenizer.ts lines 198-228): the best alignment score
over all container positions `j` whose token equals `contained[i]`, starting
from 0. -/
def includesTokenBest (container contained : List String) (i : Nat) : ℚ :=
  ((List.range container.length).map (fun (j : Nat) =>
    if listAtZ container (j : ℤ) = listAtZ contained (i : ℤ) then
      includesLocationScore container contained i j
    else 0)).foldl max 0

/-- `tokenIncludesScore` (tokenizer.ts lines 192-243): the mean over every
contained index `i` of the best alignment score for that token, returned when
it reaches `minimum_relevant` and 0 otherwise. -/
def tokenIncludesScore (tokensContainer tokensContained : List String)
    (minimum_relevant : ℚ) : ℚ :=
  let score := ((List.range tokensContained.length).map
    (fun i => includesTokenBest tokensContainer tokensContained i)).sum
  let finalScore := score / (tokensContained.length : ℚ)
  if finalScore ≥ minimum_relevant then finalScore else 0

/-- Scanner for non-overlapping occurrences of a pattern: `skip` is the number
of characters still to pass over because they belong to the previous match
(so matches never overlap). -/
def countOccurrencesAux (pat : List Char) : List Char → Nat → Nat
  | [], _ => 0
  | c :: rest, skip =>
    if skip > 0 then countOccurrencesAux pat rest (skip - 1)
    else if pat.isPrefixOf (c :: rest) then 1 + countOccurrencesAux pat rest (pat.length - 1)
    else countOccurrencesAux pat rest 0

/-- Counts the non-overlapping occurrences of `pat` in a character list,
scanning left to right: the model of a global string-literal regex match as in
`text.match(new RegExp(phrase, "g"))` (ai.ts), for the non-empty patterns the
source uses. -/
def countOccurrences (l pat : List Char) : Nat := countOccurrencesAux pat l 0

/-- JavaScript `\d`. -/
def isDigitChar (c : Char) : Bool := '0' ≤ c && c ≤ '9'

/-- JavaScript `\w` (word characters), as used by the `\b` boundary. -/
def isWordChar (c : Char) : Bool :=
  ('a' ≤ c && c ≤ 'z') || ('A' ≤ c && c ≤ 'Z') || ('0' ≤ c && c ≤ '9') || c = '_'

/-- State machine for counting matches of `/\b\d+\./g` (ai.ts): `prevIsWord`
says whether the previous character was a word character (so `\b` fails before
a digit), `runLive` says whether we are inside a digit run that started at a
word boundary. A `'.'` right after such a run completes one match; matches do
not overlap because the scan continues after the `'.'`. -/
def countNumerationAux : Bool → Bool → List Char → Nat
  | _, _, [] => 0
  | prevIsWord, runLive, c :: rest =>
    if isDigitChar c then countNumerationAux true (runLive || !prevIsWord) rest
    else if c = '.' then (if runLive then 1 else 0) + countNumerationAux false false rest
    else countNumerationAux (isWordChar c) false rest

/-- The `numerationCount` of `findAISignatures` (ai.ts): the number of
matches of `/\b\d+\./g` in the text. -/
def countNumerations (text : String) : Nat := countNumerationAux false false text.data

/-- The fixed list of canonical AI self-reference phrases of
`findAISignatures` (ai.ts). -/
def aiPhraseList : List String :=
  ["as an ai language model", "i am an ai", "i am an artificial intelligence",
   "as an artificial intelligence"]

/-- `findAISignatures` (ai.ts): a weighted lexical score — em-dashes ×0.3,
emoji in the U+1F600..U+1F64F block ×0.5, AI self-reference phrases
(case-insensitively) ×1, numbered-list markers `\b\d+\.` ×0.05 — thresholded
to 1 when the total strictly exceeds `treshold` and 0 otherwise.  The source's
floating-point constants are modelled exactly in `ℚ`. -/
def findAISignatures (text : String) (treshold : ℚ) : ℚ :=
  let emDashCount := (text.data.filter (fun c => c = '—')).length
  let emojiCount := (text.data.filter (fun c => 0x1F600 ≤ c.toNat && c.toNat ≤ 0x1F64F)).length
  let lowerText := text.data.map jsCharToLower
  let phraseCount := (aiPhraseList.map (fun p => countOccurrences lowerText p.data)).sum
  let numerationCount := countNumerations text
  let score : ℚ := (emDashCount : ℚ) * 0.3 + (emojiCount : ℚ) * 0.5 +
    (phraseCount : ℚ) * 1 + (numerationCount : ℚ) * 0.05
  if score > treshold then 1 else 0

/-- `CopyPasteContribution` (watchdog.ts lines 104-141).  `timestamp` is the
paste time in milliseconds; `similarity` is `Option ℚ` because the stored
Jaccard value is `NaN` when both token sets are empty. -/
structure CopyPasteContribution where
  aiScore : ℚ
  pasteScore : ℚ
  score : ℚ
  timestamp : ℚ
  similarity : Option ℚ
  containment : ℚ
  copyFactor : ℚ
  tabSwitchFactor : ℚ
  content : String
deriving Repr, DecidableEq

/-- `WatchdogHandleState` (watchdog.ts lines 154-160): the contribution list
and the four aggregate factors. -/
structure WatchdogHandleState where
  COPY_PASTE_CONTRIBUTIONS : List CopyPasteContribution
  COPY_RELATES_TO_PASTE : ℚ
  CONTENT_CONTAINS_AI_SIGNATURES : ℚ
  UNMODIFIED_PASTES : ℚ
  KEEPS_SWITCHING_TABS_AND_COPY_PASTING : ℚ
deriving Repr, DecidableEq

/-- The fresh per-handle state installed by the `WatchdogHandle` constructor
(watchdog.ts lines 179-187). -/
def emptyHandleState : WatchdogHandleState :=
  { COPY_PASTE_CONTRIBUTIONS := []
    COPY_RELATES_TO_PASTE := 0
    CONTENT_CONTAINS_AI_SIGNATURES := 0
    UNMODIFIED_PASTES := 0
    KEEPS_SWITCHING_TABS_AND_COPY_PASTING := 0 }

/-- `CopiedInfo` (watchdog.ts lines 598-603). -/
structure CopiedInfo where
  timestamp : ℚ
  content : String
  tokens : List String
  size : Nat
deriving Repr, DecidableEq

/-- `TabFocusWatchInfo` (watchdog.ts lines 590-596). -/
structure TabFocusWatchInfo where
  focused_in : ℚ
  focused_out : Option ℚ
  duration_ms : Option ℚ
  gap_ms : ℚ
  is_focused : Bool
deriving Repr, DecidableEq

/-- The per-reason weights of `WatchdogConfig` (watchdog.ts lines 38-43). -/
structure WatchdogReasonWeights where
  KEEPS_SWITCHING_TABS_AND_COPY_PASTING : ℚ
  COPY_RELATES_TO_PASTE : ℚ
  CONTENT_CONTAINS_AI_SIGNATURES : ℚ
  UNMODIFIED_PASTES : ℚ
deriving Repr, DecidableEq

/-- The `weights` block of `WatchdogConfig` (watchdog.ts lines 37-46). -/
structure WatchdogWeights where
  reasons : WatchdogReasonWeights
  min_copy_event_time_weight : ℚ
  min_tab_event_time_weight : ℚ
deriving Repr, DecidableEq

/-- The `settings` block of `WatchdogConfig` (watchdog.ts lines 49-52). -/
structure WatchdogSettings where
  relevant_copy_event_minutes : ℚ
  relevant_tab_in_out_event_minutes : ℚ
deriving Repr, DecidableEq

/-- `WatchdogConfig` (watchdog.ts lines 36-53). -/
structure WatchdogConfig where
  weights : WatchdogWeights
  paste_size_threshold : ℚ
  copy_size_threshold : ℚ
  settings : WatchdogSettings
deriving Repr, DecidableEq

/-- `DEFAULT_CONFIG` (watchdog.ts lines 58-75). -/
def defaultConfig : WatchdogConfig :=
  { weights :=
      { reasons :=
          { KEEPS_SWITCHING_TABS_AND_COPY_PASTING := 0.3
            COPY_RELATES_TO_PASTE := 0.3
            CONTENT_CONTAINS_AI_SIGNATURES := 0.2
            UNMODIFIED_PASTES := 0.1 }
        min_copy_event_time_weight := 0.5
        min_tab_event_time_weight := 0.5 }
    paste_size_threshold := 30
    copy_size_threshold := 30
    settings := { relevant_copy_event_minutes := 5, relevant_tab_in_out_event_minutes := 5 } }

/-- The global `Watchdog` session state read by a handle's paste handler and
factor recomputations: the configuration, the last copy event, the currently
open tab-focus interval (if any), and the closed-interval history
(watchdog.ts lines 609-650). -/
structure WatchdogEnv where
  config : WatchdogConfig
  lastCopiedInfo : Option CopiedInfo
  activeTabFocusInfo : Option TabFocusWatchInfo
  tabFocusWatchInfoHistory : List TabFocusWatchInfo
deriving Repr, DecidableEq

/-- The `foundRelatedCopy` / `foundRelatedCopyTimeFactor` pair computed by
`handlePastedText` (watchdog.ts lines 347-361): a copy within
`relevant_copy_event_minutes` yields a linear time decay
`1 - timeDiff/window`, clamped up to `min_copy_event_time_weight`. -/
def relatedCopyTimeInfo (cfg : WatchdogConfig) (lastCopiedInfo : Option CopiedInfo)
    (now : ℚ) : Bool × ℚ :=
  match lastCopiedInfo with
  | none => (false, 0)
  | some ci =>
    let timeDiff := now - ci.timestamp
    if timeDiff < cfg.settings.relevant_copy_event_minutes * 60 * 1000 then
      let f := 1 - timeDiff / (cfg.settings.relevant_copy_event_minutes * 60 * 1000)
      (true, if f < cfg.weights.min_copy_event_time_weight then
        cfg.weights.min_copy_event_time_weight else f)
    else (false, 0)

/-- `foundRelatedCopyFactor` (watchdog.ts line 374); this is the `copyFactor`
stored in the contribution. -/
def copyFactorValue (cfg : WatchdogConfig) (lastCopiedInfo : Option CopiedInfo)
    (now : ℚ) : ℚ :=
  (if (relatedCopyTimeInfo cfg lastCopiedInfo now).1 then 1 else 0) *
    (relatedCopyTimeInfo cfg lastCopiedInfo now).2

/-- The `switchedTabsRecently` / `switchedTabsRecentlyTimeFactor` pair of
`handlePastedText` (watchdog.ts lines 363-372), measured against the open
focus interval's `focused_in` time. -/
def recentTabSwitchInfo (cfg : WatchdogConfig) (active : Option TabFocusWatchInfo)
    (now : ℚ) : Bool × ℚ :=
  match active with
  | none => (false, 0)
  | some info =>
    let timeDiff := now - info.focused_in
    if timeDiff < cfg.settings.relevant_tab_in_out_event_minutes * 60 * 1000 then
      let f := 1 - timeDiff / (cfg.settings.relevant_tab_in_out_event_minutes * 60 * 1000)
      (true, if f < cfg.weights.min_tab_event_time_weight then
        cfg.weights.min_tab_event_time_weight else f)
    else (false, 0)

/-- `switchedTabsRecentlyFactor` (watchdog.ts line 375); this is the
`tabSwitchFactor` stored in the contribution. -/
def tabSwitchFactorValue (cfg : WatchdogConfig) (active : Option TabFocusWatchInfo)
    (now : ℚ) : ℚ :=
  (if (recentTabSwitchInfo cfg active now).1 then 1 else 0) *
    (recentTabSwitchInfo cfg active now).2

/-- The contribution record pushed by `handlePastedText` (watchdog.ts lines
335-400) for a paste of `text` at time `now`: similarity and containment
against the last copy's tokens, the two time-decayed factors, the
multiplicative `cheatingPasteScore`, and the AI-signature combination rule. -/
def mkContribution (env : WatchdogEnv) (now : ℚ) (text : String) : CopyPasteContribution :=
  let tokens := simpleTokenizer text
  let copyTokens := match env.lastCopiedInfo with | some ci => ci.tokens | none => []
  let similarity := tokenSimilarityCompare tokens copyTokens
  let containment : ℚ :=
    match env.lastCopiedInfo with
    | some ci => if ci.tokens.length ≠ 0 then tokenContainmentCompare tokens ci.tokens else 0
    | none => 0
  let foundRelatedCopyFactor := copyFactorValue env.config env.lastCopiedInfo now
  let switchedTabsRecentlyFactor := tabSwitchFactorValue env.config env.activeTabFocusInfo now
  let cheatingPasteScore := containment * foundRelatedCopyFactor * switchedTabsRecentlyFactor
  let aiScore := findAISignatures text 1
  let score := if aiScore ≥ cheatingPasteScore then cheatingPasteScore * aiScore
    else cheatingPasteScore
  { pasteScore := cheatingPasteScore
    score := score
    aiScore := aiScore
    timestamp := now
    similarity := similarity
    containment := containment
    copyFactor := foundRelatedCopyFactor
    tabSwitchFactor := switchedTabsRecentlyFactor
    content := text }

/-- The similarity test of `handlePastedText` (watchdog.ts line 340):
`similarity > 0.9`.  A `NaN` similarity (`none`) compares false. -/
def similarityTooHigh : Option ℚ → Bool
  | some q => decide (q > 0.9)
  | none => false

/-- `handlePastedText` (watchdog.ts lines 334-401): discard the paste when the
similarity against the last copy's tokens exceeds 0.9, otherwise append one
contribution.  No aggregate factor is touched by this function. -/
def handlePastedText (env : WatchdogEnv) (now : ℚ) (text : String)
    (state : WatchdogHandleState) : WatchdogHandleState :=
  let tokens := simpleTokenizer text
  let copyTokens := match env.lastCopiedInfo with | some ci => ci.tokens | none => []
  if similarityTooHigh (tokenSimilarityCompare tokens copyTokens) then state
  else { state with
    COPY_PASTE_CONTRIBUTIONS := state.COPY_PASTE_CONTRIBUTIONS ++ [mkContribution env now text] }

/-- `handlePaste` (watchdog.ts lines 313-332): ignore the event when there is
no clipboard data, when the plain-text payload is empty, or when it is shorter
than `paste_size_threshold`; otherwise run `handlePastedText`. -/
def handlePaste (env : WatchdogEnv) (now : ℚ) (clipboardText : Option String)
    (state : WatchdogHandleState) : WatchdogHandleState :=
  match clipboardText with
  | none => state
  | some text =>
    if text.data.isEmpty then state
    else if (text.data.length : ℚ) < env.config.paste_size_threshold then state
    else handlePastedText env now text state

/-- `recalculateCopyRelatesToPaste` (watchdog.ts lines 402-417): 0 with no
contributions, otherwise the mean over contributions of
`tokenIncludesScore(tokenize(content), tokenize(contribution.content), 0.7) × score`. -/
def recalculateCopyRelatesToPaste (content : String)
    (state : WatchdogHandleState) : WatchdogHandleState :=
  if state.COPY_PASTE_CONTRIBUTIONS.length = 0 then
    { state with COPY_RELATES_TO_PASTE := 0 }
  else
    let total := (state.COPY_PASTE_CONTRIBUTIONS.map (fun contribution =>
      tokenIncludesScore (simpleTokenizer content) (simpleTokenizer contribution.content) 0.7 *
        contribution.score)).sum
    { state with
      COPY_RELATES_TO_PASTE := total / (state.COPY_PASTE_CONTRIBUTIONS.length : ℚ) }

/-- `recalculateAIScore` (watchdog.ts lines 418-431): the same weighting as
`recalculateCopyRelatesToPaste` but against each contribution's `aiScore`. -/
def recalculateAIScore (content : String)
    (state : WatchdogHandleState) : WatchdogHandleState :=
  if state.COPY_PASTE_CONTRIBUTIONS.length = 0 then
    { state with CONTENT_CONTAINS_AI_SIGNATURES := 0 }
  else
    let total := (state.COPY_PASTE_CONTRIBUTIONS.map (fun contribution =>
      tokenIncludesScore (simpleTokenizer content) (simpleTokenizer contribution.content) 0.7 *
        contribution.aiScore)).sum
    { state with
      CONTENT_CONTAINS_AI_SIGNATURES := total / (state.COPY_PASTE_CONTRIBUTIONS.length : ℚ) }

/-- Whether `pat` occurs as a contiguous substring: JavaScript
`String.prototype.includes`. -/
def containsSublist (pat : List Char) : List Char → Bool
  | [] => pat.isEmpty
  | c :: rest => pat.isPrefixOf (c :: rest) || containsSublist pat rest

/-- JavaScript `contentWorking.includes(contribution.content)`. -/
def jsIncludes (s pat : String) : Bool := containsSublist pat.data s.data

/-- JavaScript `s.replace(pat, '')` for plain string patterns. -/
def jsReplaceFirst (s pat : String) : String := String.mk (removeFirstOccurrence s.data pat.data)

/-- JavaScript `String.prototype.trim` over the modelled whitespace set. -/
def jsTrim (s : String) : String :=
  String.mk (((s.data.dropWhile isWhitespaceJS).reverse.dropWhile isWhitespaceJS).reverse)

/-- The sentence separators of `recalculateUnmodifiedPastes` (watchdog.ts line
450): `split(/(?<=[.!?])\s+|\n|\r\n/)`.  The scan takes, at each position, the
first matching alternative: a greedy whitespace run immediately after `.`, `!`
or `?`; a single `'\n'`; or `"\r\n"`.  `prev` is the character before the scan
position (`none` at the start of the string), `cur` the current segment
reversed. -/
def sentenceSplitAux (prev : Option Char) (cur : List Char) :
    List Char → List (List Char)
  | [] => [cur.reverse]
  | c :: rest =>
    if (match prev with
        | some p => p = '.' || p = '!' || p = '?'
        | none => false) && isWhitespaceJS c then
      let ws := rest.takeWhile isWhitespaceJS
      cur.reverse :: sentenceSplitAux (some ' ') [] (rest.drop ws.length)
    else if c = '\n' then
      cur.reverse :: sentenceSplitAux (some '\n') [] rest
    else if c = '\r' && rest.head? = some '\n' then
      cur.reverse :: sentenceSplitAux (some '\n') [] rest.tail
    else
      sentenceSplitAux (some c) (c :: cur) rest
termination_by l => l.length
decreasing_by
  · simp [List.length_drop]; omega
  · simp
  · cases rest with
    | nil => simp at *
    | cons h t => simp; omega
  · simp

/-- The sentence list of `recalculateUnmodifiedPastes` (watchdog.ts line 450):
split at the separators, keep the fragments with non-blank content. -/
def sentenceSplit (s : String) : List String :=
  ((sentenceSplitAux none [] s.data).map String.mk).filter (fun t => (jsTrim t).length > 0)

/-- The per-contribution step of `recalculateUnmodifiedPastes` (watchdog.ts
lines 443-461), threading the accumulated `unmodifiedPastes` count and the
mutable `contentWorking` copy: a verbatim contribution counts 1 and is removed
from the working copy; otherwise the fraction of its non-blank sentences found
verbatim (each removed in turn) is added.  When a contribution has no
non-blank sentence the source divides 0 by 0 (JavaScript `NaN`); Lean's
`0 / 0 = 0` stands in for that unreachable corner (paste payloads are
non-empty and at least `paste_size_threshold` characters). -/
def unmodifiedPastesStep (acc : ℚ × String) (contribution : CopyPasteContribution) :
    ℚ × String :=
  let u := acc.1
  let contentWorking := acc.2
  if jsIncludes contentWorking contribution.content then
    (u + 1, jsReplaceFirst contentWorking contribution.content)
  else
    let sentences := sentenceSplit contribution.content
    let folded := sentences.foldl (fun (acc2 : ℚ × String) sentence =>
      if jsIncludes acc2.2 sentence then (acc2.1 + 1, jsReplaceFirst acc2.2 sentence)
      else acc2) (0, contentWorking)
    (u + folded.1 / (sentences.length : ℚ), folded.2)

/-- `recalculateUnmodifiedPastes` (watchdog.ts lines 432-472): combines the
ratio of (fully or fractionally) unmodified contributions with the ratio of
field characters consumed by verbatim matches. -/
def recalculateUnmodifiedPastes (content : String)
    (state : WatchdogHandleState) : WatchdogHandleState :=
  let totalPastes := state.COPY_PASTE_CONTRIBUTIONS.length
  if totalPastes = 0 then { state with UNMODIFIED_PASTES := 0 }
  else
    let folded := state.COPY_PASTE_CONTRIBUTIONS.foldl unmodifiedPastesStep (0, content)
    let unmodifiedPastesRatio := folded.1 / (totalPastes : ℚ)
    let remainingCharacters : ℚ := (folded.2.data.length : ℚ)
    let totalCharacters : ℚ := (content.data.length : ℚ)
    let remainingCharactersRatio := if content.data.length > 0 then
      remainingCharacters / totalCharacters else 0
    { state with UNMODIFIED_PASTES := (unmodifiedPastesRatio + (1 - remainingCharactersRatio)) / 2 }

/-- A thrown JavaScript runtime exception (here: the `TypeError` raised by
reading a property of `null`). -/
inductive JsError where
  | typeError
deriving Repr, DecidableEq

/-- The `for` loop of `recalculateKeepsSwitchingTabsAndCopyPasting`
(watchdog.ts lines 489-517), starting at index 1.  `arr` is the focus history
with the active slot appended — the slot is `none` when `activeTabFocusInfo`
is `null`, in which case reading `current.focused_out` throws a `TypeError`.
Accumulates the pattern score sum `sc` and the pattern count `tp`. -/
def ksLoop (arr : List (Option TabFocusWatchInfo)) (now : ℚ) (contentTokens : List String)
    (contribs : List CopyPasteContribution) (i : Nat) (sc : ℚ) (tp : Nat) :
    Except JsError (ℚ × Nat) :=
  if h : i < arr.length then
    match arr.get ⟨i, h⟩ with
    | none => .error .typeError
    | some current =>
      let next : Option (Option TabFocusWatchInfo) := arr.get? (i + 1)
      let endTime : ℚ :=
        match next with
        | some (some nfo) => nfo.focused_out.getD now
        | _ => now
      let startTime : ℚ := current.focused_out.getD current.focused_in
      let pastesInBetween := contribs.filter (fun contribution =>
        decide (startTime ≤ contribution.timestamp) && decide (contribution.timestamp ≤ endTime))
      if pastesInBetween.length > 0 then
        let maxScoreOfAPaste := (pastesInBetween.map (fun contribution =>
          tokenIncludesScore contentTokens (simpleTokenizer contribution.content) 0.7 *
            contribution.score)).foldl max 0
        ksLoop arr now contentTokens contribs (i + 1) (sc + maxScoreOfAPaste) (tp + 1)
      else ksLoop arr now contentTokens contribs (i + 1) sc tp
  else .ok (sc, tp)
termination_by arr.length - i

/-- `recalculateKeepsSwitchingTabsAndCopyPasting` (watchdog.ts lines 473-526).
The source builds `[...history, activeTabFocusInfo]`, counting the active slot
even when it is `null`; with fewer than two slots the factor is set to 0,
otherwise the loop walks the slots from index 1 — and dereferences a `null`
slot, raising a `TypeError`. -/
def recalculateKeepsSwitchingTabsAndCopyPasting (env : WatchdogEnv) (now : ℚ)
    (content : String) (state : WatchdogHandleState) :
    Except JsError WatchdogHandleState :=
  let tabFocusHistoryWithCurrent : List (Option TabFocusWatchInfo) :=
    env.tabFocusWatchInfoHistory.map some ++ [env.activeTabFocusInfo]
  if tabFocusHistoryWithCurrent.length < 2 then
    .ok { state with KEEPS_SWITCHING_TABS_AND_COPY_PASTING := 0 }
  else
    let currentContentTokens := simpleTokenizer content
    match ksLoop tabFocusHistoryWithCurrent now currentContentTokens
      state.COPY_PASTE_CONTRIBUTIONS 1 0 0 with
    | .error e => .error e
    | .ok (sc, tp) =>
      if tp = 0 then .ok { state with KEEPS_SWITCHING_TABS_AND_COPY_PASTING := 0 }
      else .ok { state with KEEPS_SWITCHING_TABS_AND_COPY_PASTING := sc / (tp : ℚ) }

/-- JavaScript `toLowerCase` on a string, over the modelled character map. -/
def jsStringToLower (s : String) : String := String.mk (s.data.map jsCharToLower)

/-- The DOM facts about a monitored element that `initialize` inspects
(watchdog.ts lines 208-210): its tag name, its `type` attribute and its
`isContentEditable` flag. -/
structure ElementInfo where
  tagName : String
  typeAttr : String
  isContentEditable : Bool
deriving Repr, DecidableEq

/-- The text-capability check of `initialize` (watchdog.ts line 210):
`textarea`, `input` with `type=text`, or a contenteditable region. -/
def isTextCapable (el : ElementInfo) : Bool :=
  let tagName := jsStringToLower el.tagName
  tagName = "textarea" || (tagName = "input" && el.typeAttr = "text") || el.isContentEditable

/-- The mutable fields of a `WatchdogHandle` (watchdog.ts lines 164-191)
relevant to initialization: the element, the `isInitialized` flag, the
`doNotSetupEvents` flag, the handle state, and whether paste/input listeners
are currently attached (the effect of `restart`). -/
structure HandleModel where
  element : ElementInfo
  isInitialized : Bool
  doNotSetupEvents : Bool
  state : WatchdogHandleState
  eventsAttached : Bool
deriving Repr, DecidableEq

/-- The failures `initialize` can signal to its caller: the session is not
monitoring, the element is not text-capable, the supplied async state loader
rejected, or a runtime exception escaped the recomputation chain. -/
inductive InitError where
  | uninitializedSession
  | invalidFieldType
  | loaderRejected
  | runtime (e : JsError)
deriving Repr, DecidableEq

/-- `loadState` (watchdog.ts lines 219-232): replace the state with the
loader's result when a loader is supplied (a rejection propagates before any
assignment), then recompute the four factors in order.  `loader` is the
settled outcome of the supplied `WatchdogStateLoader` promise; `content` is
the field's current text (`getContentFromHTMLElement`).  The notification of
score listeners (`onNewScoreCalculated`) does not change the state and is not
modelled.  Returns the outcome together with the handle state as left behind
(a mid-chain exception keeps the partially recomputed state). -/
def loadStateModel (env : WatchdogEnv) (now : ℚ) (content : String)
    (loader : Option (Except Unit WatchdogHandleState))
    (state : WatchdogHandleState) : Except InitError Unit × WatchdogHandleState :=
  match loader with
  | some (.error _) => (.error .loaderRejected, state)
  | some (.ok loaded) =>
    let s1 := recalculateCopyRelatesToPaste content loaded
    let s2 := recalculateAIScore content s1
    let s3 := recalculateUnmodifiedPastes content s2
    match recalculateKeepsSwitchingTabsAndCopyPasting env now content s3 with
    | .error e => (.error (.runtime e), s3)
    | .ok s4 => (.ok (), s4)
  | none =>
    let s1 := recalculateCopyRelatesToPaste content state
    let s2 := recalculateAIScore content s1
    let s3 := recalculateUnmodifiedPastes content s2
    match recalculateKeepsSwitchingTabsAndCopyPasting env now content s3 with
    | .error e => (.error (.runtime e), s3)
    | .ok s4 => (.ok (), s4)

/-- `WatchdogHandle.initialize` (watchdog.ts lines 201-218) followed, on
success, by `restart` (lines 236-251).  `isMonitoring` is the owning session's
flag.  Note the source sets `this.isInitialized = true` BEFORE validating the
element and before awaiting the loader, so both of those failures leave the
flag set; only the not-monitoring failure throws before the mutation.
Returns the outcome and the handle as left behind. -/
def initializeModel (isMonitoring : Bool) (h : HandleModel) (doNotSetupEvents : Bool)
    (env : WatchdogEnv) (now : ℚ) (content : String)
    (loader : Option (Except Unit WatchdogHandleState)) :
    Except InitError Unit × HandleModel :=
  if !isMonitoring then (.error .uninitializedSession, h)
  else
    let h1 := { h with isInitialized := true, doNotSetupEvents := doNotSetupEvents }
    if isTextCapable h1.element then
      match loadStateModel env now content loader h1.state with
      | (.error e, s) => (.error e, { h1 with state := s })
      | (.ok _, s) =>
        let attached := if doNotSetupEvents then h1.eventsAttached else true
        (.ok (), { h1 with state := s, eventsAttached := attached })
    else (.error .invalidFieldType, h1)

/-- Specification form of the offset weight of `includesScore` (spec section
4.2): offset `k` contributes weight `1 - |k|/len(contained)`. -/
def specIncludesWeight (len : Nat) (k : ℤ) : ℚ := 1 - (k.natAbs : ℚ) / (len : ℚ)

/-- Specification form of the alignment window for contained position `i`:
the offsets `k` spanning the full length of `contained`, centered so that
position `i` aligns with the candidate container position. -/
def specWindow (len i : Nat) : Finset ℤ := Finset.Icc (-(i : ℤ)) ((len : ℤ) - 1 - (i : ℤ))

/-- Specification form of the achieved total at candidate alignment `j`: each
offset contributes its weight exactly when the container token at `j+k` equals
the contained token at `i+k`, out-of-range container positions counting as
mismatches. -/
def specIncludesAchieved (container contained : List String) (i j : Nat) : ℚ :=
  ∑ k ∈ specWindow contained.length i,
    if listAtZ container ((j : ℤ) + k) = listAtZ contained ((i : ℤ) + k) then
      specIncludesWeight contained.length k
    else 0

/-- Specification form of the maximum-possible total: the sum of all offset
weights over the window. -/
def specIncludesMaxPossible (contained : List String) (i : Nat) : ℚ :=
  ∑ k ∈ specWindow contained.length i, specIncludesWeight contained.length k

/-- Specification form of the per-token score: achieved over maximum at the
best-scoring container position `j` among those where `container[j]` equals
`contained[i]` (0 when there is none). -/
def specIncludesBest (container contained : List String) (i : Nat) : ℚ :=
  (((List.range container.length).filter
      (fun (j : Nat) => decide (listAtZ container (j : ℤ) = listAtZ contained (i : ℤ)))).map
    (fun (j : Nat) => specIncludesAchieved container contained i j /
      specIncludesMaxPossible contained i)).foldr max 0

/-- Specification form of `includesScore` (spec section 4.2): the mean of the
per-token best scores across all positions `i` of `contained`, returned when
it reaches `minimumRelevant` and 0 otherwise. -/
def specIncludesScore (container contained : List String) (minimumRelevant : ℚ) : ℚ :=
  let mean := (∑ i ∈ Finset.range contained.length,
    specIncludesBest container contained i) / (contained.length : ℚ)
  if mean ≥ minimumRelevant then mean else 0

/-- Sums over `List.range` agree with `Finset.range` sums. -/
theorem listRange_map_sum (f : ℕ → ℚ) (n : ℕ) :
    ((List.range n).map f).sum = ∑ i ∈ Finset.range n, f i := by
  induction n with
  | zero => simp
  | succ n ih => simp [List.range_succ, Finset.sum_range_succ, ih]

/-- The offset window is the image of the index range under `m ↦ m - i`. -/
theorem specWindow_eq_map (len i : Nat) :
    specWindow len i = (Finset.range len).map
      ⟨fun (m : Nat) => (m : ℤ) - (i : ℤ), fun a b hab => by
        simp only at hab
        omega⟩ := by
  ext k
  simp only [specWindow, Finset.mem_Icc, Finset.mem_map, Finset.mem_range,
    Function.Embedding.coeFn_mk]
  constructor
  · intro hk
    exact ⟨(k + i).toNat, by omega, by omega⟩
  · rintro ⟨m, hm, rfl⟩
    omega

/-- The source `matchMax` accumulator equals the specification's
maximum-possible total. -/
theorem includesMatchMax_eq (contained : List String) (i : Nat) :
    includesMatchMax contained i = specIncludesMaxPossible contained i := by
  rw [includesMatchMax, specIncludesMaxPossible, specWindow_eq_map, Finset.sum_map,
    listRange_map_sum]
  rfl

/-- The source `matchLength` accumulator equals the specification's achieved
total. -/
theorem includesMatchLength_eq (container contained : List String) (i j : Nat) :
    includesMatchLength container contained i j =
      specIncludesAchieved container contained i j := by
  rw [includesMatchLength, specIncludesAchieved, specWindow_eq_map, Finset.sum_map,
    listRange_map_sum]
  refine Finset.sum_congr rfl (fun m hm => ?_)
  simp only [Function.Embedding.coeFn_mk]
  have h1 : (i : ℤ) + ((m : ℤ) - (i : ℤ)) = (m : ℤ) := by ring
  have h2 : (j : ℤ) + ((m : ℤ) - (i : ℤ)) = (j : ℤ) + (m : ℤ) - (i : ℤ) := by ring
  rw [h1, h2]
  rfl

/-- A running maximum starting at 0 is non-negative. -/
theorem foldr_max_nonneg (l : List ℚ) : 0 ≤ l.foldr max 0 := by
  induction l with
  | nil => exact le_refl 0
  | cons c t ih => exact le_trans ih (le_max_right c _)

/-- Pulling one element out of the base of a right-fold of `max`. -/
theorem foldr_max_base (l : List ℚ) (a x : ℚ) :
    l.foldr max (max a x) = max x (l.foldr max a) := by
  induction l with
  | nil => exact max_comm a x
  | cons c t ih => rw [List.foldr_cons, ih, List.foldr_cons, max_left_comm]

/-- A running maximum can be computed by a fold from either side. -/
theorem foldl_max_eq_foldr_max (l : List ℚ) (a : ℚ) : l.foldl max a = l.foldr max a := by
  induction l generalizing a with
  | nil => rfl
  | cons c t ih => rw [List.foldl_cons, ih, List.foldr_cons, ← foldr_max_base]

/-- Taking a running maximum (from 0) of values that are zeroed outside a
predicate is the same as restricting to the predicate first. -/
theorem foldr_max_filter (l : List ℕ) (p : ℕ → Prop) [DecidablePred p] (f : ℕ → ℚ) :
    ((l.map (fun j => if p j then f j else 0)).foldr max 0) =
      (((l.filter (fun j => decide (p j))).map f).foldr max 0) := by
  induction l with
  | nil => rfl
  | cons c t ih =>
    by_cases hc : p c
    · rw [List.map_cons, List.foldr_cons, if_pos hc, ih, List.filter_cons,
        decide_eq_true hc, if_pos rfl, List.map_cons, List.foldr_cons]
    · rw [List.map_cons, List.foldr_cons, if_neg hc, ih, List.filter_cons,
        decide_eq_false hc]
      simp only [Bool.false_eq_true, if_false]
      exact max_eq_right (foldr_max_nonneg _)

/-- The source inner loop (`thisTokenMaxScoreSoFar`) equals the
specification's per-token best score. -/
theorem includesTokenBest_eq (container contained : List String) (i : Nat) :
    includesTokenBest container contained i = specIncludesBest container contained i := by
  rw [includesTokenBest, foldl_max_eq_foldr_max]
  have hfun : (fun (j : Nat) =>
      if listAtZ container (j : ℤ) = listAtZ contained (i : ℤ) then
        includesLocationScore container contained i j
      else 0) = (fun (j : Nat) =>
      if listAtZ container (j : ℤ) = listAtZ contained (i : ℤ) then
        specIncludesAchieved container contained i j / specIncludesMaxPossible contained i
      else 0) := by
    funext j
    rw [includesLocationScore, includesMatchLength_eq, includesMatchMax_eq]
  rw [hfun, specIncludesBest]
  exact foldr_max_filter (List.range container.length)
    (fun j => listAtZ container (j : ℤ) = listAtZ contained (i : ℤ))
    (fun j => specIncludesAchieved container contained i j / specIncludesMaxPossible contained i)

/-- The loop translation of `tokenIncludesScore` coincides with the
specification-form definition for every input. -/
theorem tokenIncludesScore_eq_spec (container contained : List String) (minimum_relevant : ℚ) :
    tokenIncludesScore container contained minimum_relevant =
      specIncludesScore container contained minimum_relevant := by
  rw [tokenIncludesScore, specIncludesScore]
  have hsum : ((List.range contained.length).map
      (fun i => includesTokenBest container contained i)).sum =
      ∑ i ∈ Finset.range contained.length, specIncludesBest container contained i := by
    rw [listRange_map_sum]
    exact Finset.sum_congr rfl (fun i _ => includesTokenBest_eq container contained i)
  simp only [hsum]

theorem tokenSimilarityCompare_self (A : List String) (hA : A ≠ []) :
    tokenSimilarityCompare A A = some 1 := by
  unfold tokenSimilarityCompare
  have hfilter : (A.dedup.filter (fun x => A.contains x)) = A.dedup := by
    apply List.filter_eq_self.mpr
    intro x hx
    have hmem : x ∈ A := List.mem_dedup.mp hx
    exact List.elem_eq_true_of_mem hmem
  have hunion : ((A ++ A).dedup).length = A.dedup.length := by
    have h1 : ((A ++ A).dedup).length = (A ++ A).toFinset.card := (List.card_toFinset _).symm
    have h2 : (A ++ A).toFinset = A.toFinset := by simp
    rw [h1, h2, List.card_toFinset]
  have hn : A.dedup.length ≠ 0 := by
    intro h
    exact hA ((List.dedup_eq_nil A).mp (List.length_eq_zero.mp h))
  simp only [hfilter, hunion]
  rw [if_neg hn]
  congr 1
  exact div_self (by exact_mod_cast hn)

/-- C5 counterexample: tokenizing `"Running, quickly!"` does not yield
`["runn","quick","!"]` (the comma survives normalization and is kept as a
token), and suffix stripping is not a strip "off the back": `"estates"` loses
its first `"s"`, not the trailing one. -/
theorem C5_counterexample :
    simpleTokenizer "Running, quickly!" ≠ ["runn", "quick", "!"] ∧
    normalizeToken "estates" ≠ "estate" := by
  decide

/-- C5 (amended): `simpleTokenizer` splits on whitespace and the fixed
punctuation set (emitting punctuation marks as one-character tokens) and
normalizes each token by stripping at most one prefix (first match in list
order) off the front, removing the first occurrence of the first matching
suffix (in list order) — for typical tokens the trailing occurrence — and then
lower-casing and folding accents; tokens that become empty are dropped, but
punctuation tokens survive.  In particular
`simpleTokenizer "Running, quickly!" = ["runn", ",", "quick", "!"]`. -/
theorem C5_tokenize_normalizes_with_punctuation :
    simpleTokenizer "Running, quickly!" = ["runn", ",", "quick", "!"] ∧
    normalizeToken "Running" = "runn" ∧
    normalizeToken "quickly" = "quick" ∧
    normalizeToken "," = "," ∧
    normalizeToken "estates" = "etates" := by
  decide

/-- C7 counterexample: `similarity([], [])` is not guarded to `0`: the source
performs the `0/0` division, which is JavaScript `NaN` (`none` in this model),
not the rational `0`. -/
theorem C7_counterexample :
    tokenSimilarityCompare ([] : List String) ([] : List String) ≠ some 0 ∧
    tokenSimilarityCompare ([] : List String) ([] : List String) = none := by
  constructor
  · intro h
    simp [tokenSimilarityCompare] at h
  · rfl

/-- C7 (amended): `similarity(A, A) = 1` for every non-empty token sequence
`A`, but `similarity([], [])` is NOT guarded: the `|A∩B| / |A∪B|` division is
performed unconditionally and yields `NaN` (`none`) when both sets are empty;
callers must guard it themselves. -/
theorem C7_similarity_self (A : List String) :
    (A ≠ [] → tokenSimilarityCompare A A = some 1) ∧
    tokenSimilarityCompare ([] : List String) ([] : List String) = none :=
  ⟨fun hA => tokenSimilarityCompare_self A hA, rfl⟩

/-- Witness for C7 at a concrete non-empty token sequence. -/
theorem C7_similarity_self_witness :
    tokenSimilarityCompare ["copy"] ["copy"] = some 1 ∧
    tokenSimilarityCompare ([] : List String) ([] : List String) = none :=
  ⟨(C7_similarity_self ["copy"]).1 (by decide), (C7_similarity_self ["copy"]).2⟩

/-- C6: `tokenIncludesScore` iterates `i` over every index of `contained`,
takes for each `i` the best score over all alignments `j` with
`container[j] = contained[i]` — scoring offsets `k` over the full length of
`contained` with weight `1 − |k|/len(contained)`, out-of-range container
positions counting as mismatches — averages the per-token best scores over
`len(contained)` and returns that mean when it reaches `minimumRelevant`, else
0: the loop translation agrees with the specification-form definition on all
inputs. -/
theorem C6_includesScore_matches_spec (container contained : List String)
    (minimum_relevant : ℚ) :
    tokenIncludesScore container contained minimum_relevant =
      specIncludesScore container contained minimum_relevant :=
  tokenIncludesScore_eq_spec container contained minimum_relevant

/-- C3: a paste whose tokens are identical to the last copy's (non-empty)
tokens has similarity 1 > 0.9 and is discarded entirely: `handlePastedText`
returns the state unchanged — no contribution is appended and no aggregate
factor is touched. -/
theorem C3_identical_paste_discarded (env : WatchdogEnv) (now : ℚ) (text : String)
    (state : WatchdogHandleState) (ci : CopiedInfo)
    (hci : env.lastCopiedInfo = some ci)
    (htok : simpleTokenizer text = ci.tokens)
    (hne : ci.tokens ≠ []) :
    handlePastedText env now text state = state := by
  unfold handlePastedText
  simp only [hci, htok]
  rw [tokenSimilarityCompare_self ci.tokens hne]
  have h1 : similarityTooHigh (some 1) = true := by
    unfold similarityTooHigh
    norm_num
  rw [h1]
  simp

/-- The session state for the C3 witness: the last copy was `"copy me now"`. -/
def identicalPasteEnv : WatchdogEnv where
  config := defaultConfig
  lastCopiedInfo :=
    some { timestamp := 0, content := "copy me now", tokens := simpleTokenizer "copy me now", size := 11 }
  activeTabFocusInfo := none
  tabFocusWatchInfoHistory := []

/-- Witness for C3: a concrete re-paste of the exact copied text leaves a
concrete state (with a non-trivial factor) unchanged. -/
theorem C3_identical_paste_discarded_witness :
    handlePastedText identicalPasteEnv 60000 "copy me now"
      { emptyHandleState with COPY_RELATES_TO_PASTE := 1 } =
      { emptyHandleState with COPY_RELATES_TO_PASTE := 1 } :=
  C3_identical_paste_discarded identicalPasteEnv 60000 "copy me now" _ _ rfl rfl (by decide)

/-- C8: with a 5-minute copy window and a 0.5 floor, the copy factor of the
paste pipeline decays linearly: a paste 2 minutes after the copy gets
`1 - 2/5 = 0.6` (above the floor, unfloored), a paste 4.9 minutes after gets
the raw decay 0.02 clamped up to the 0.5 floor, a paste 5 or more minutes
after gets 0, and with no prior copy the factor is 0. -/
theorem C8_copy_factor_decay (cfg : WatchdogConfig) (ci : CopiedInfo)
    (hwin : cfg.settings.relevant_copy_event_minutes = 5)
    (hmin : cfg.weights.min_copy_event_time_weight = 0.5)
    (hts : ci.timestamp = 0) :
    copyFactorValue cfg (some ci) 120000 = 0.6 ∧
    copyFactorValue cfg (some ci) 294000 = 0.5 ∧
    (∀ t : ℚ, 300000 ≤ t → copyFactorValue cfg (some ci) t = 0) ∧
    (∀ t : ℚ, copyFactorValue cfg none t = 0) := by
  refine ⟨?_, ?_, ?_, ?_⟩
  · simp only [copyFactorValue, relatedCopyTimeInfo, hwin, hmin, hts]
    norm_num
  · simp only [copyFactorValue, relatedCopyTimeInfo, hwin, hmin, hts]
    norm_num
  · intro t ht
    have hlt : ¬ (t - ci.timestamp < cfg.settings.relevant_copy_event_minutes * 60 * 1000) := by
      rw [hwin, hts]
      norm_num
      linarith
    simp only [copyFactorValue, relatedCopyTimeInfo, if_neg hlt]
    norm_num
  · intro t
    simp only [copyFactorValue, relatedCopyTimeInfo]
    norm_num

/-- Witness for C8 under the default configuration (window 5 minutes, floor
0.5) with a copy at time 0. -/
theorem C8_copy_factor_decay_witness :
    copyFactorValue defaultConfig (some ⟨0, "", [], 0⟩) 120000 = 0.6 ∧
    copyFactorValue defaultConfig (some ⟨0, "", [], 0⟩) 294000 = 0.5 ∧
    copyFactorValue defaultConfig (some ⟨0, "", [], 0⟩) 300000 = 0 ∧
    copyFactorValue defaultConfig none 360000 = 0 := by
  have h := C8_copy_factor_decay defaultConfig ⟨0, "", [], 0⟩ rfl rfl rfl
  exact ⟨h.1, h.2.1, h.2.2.1 300000 (by norm_num), h.2.2.2 360000⟩

/-- A session state in which exactly one focus interval exists: the history
holds one closed interval and no interval is currently open (the tab is
hidden), as left behind by `handleVisibilityChange` on losing focus
(watchdog.ts lines 781-787). -/
def singleClosedIntervalEnv : WatchdogEnv where
  config := defaultConfig
  lastCopiedInfo := none
  activeTabFocusInfo := none
  tabFocusWatchInfoHistory :=
    [{ focused_in := 0, focused_out := some 1000, duration_ms := some 1000,
       gap_ms := 0, is_focused := false }]

/-- C9: claimed — with fewer than two focus intervals the
`KEEPS_SWITCHING_TABS_AND_COPY_PASTING` recomputation sets the factor to 0.
The code violates this: `[...history, activeTabFocusInfo]` counts the active
slot even when it is `null`, so with one closed interval in the history and no
open interval (one interval in total) the guard `length < 2` does not fire,
the loop dereferences the `null` slot (`current.focused_out`, watchdog.ts
line 496) and the recomputation throws a `TypeError` instead of setting the
factor to 0. -/
theorem C9_single_interval_recompute_throws :
    recalculateKeepsSwitchingTabsAndCopyPasting singleClosedIntervalEnv 5000 ""
      emptyHandleState = .error .typeError ∧
    (singleClosedIntervalEnv.tabFocusWatchInfoHistory.length +
      (match singleClosedIntervalEnv.activeTabFocusInfo with
        | some _ => 1
        | none => 0)) < 2 := by
  constructor
  · simp only [recalculateKeepsSwitchingTabsAndCopyPasting]
    rw [if_neg (by decide)]
    rw [ksLoop.eq_def]
    rfl
  · decide

/-- A qualifying paste — non-empty text, length at least the threshold,
similarity with the last copy's tokens not above 0.9 — appends exactly the
contribution `mkContribution env now text` and changes nothing else in the
handle state. -/
theorem handlePaste_appends (env : WatchdogEnv) (now : ℚ) (text : String)
    (state : WatchdogHandleState)
    (hne : text.data ≠ [])
    (hlen : ¬ ((text.data.length : ℚ) < env.config.paste_size_threshold))
    (hsim : similarityTooHigh (tokenSimilarityCompare (simpleTokenizer text)
      (match env.lastCopiedInfo with | some ci => ci.tokens | none => [])) = false) :
    handlePaste env now (some text) state =
      { state with COPY_PASTE_CONTRIBUTIONS :=
          state.COPY_PASTE_CONTRIBUTIONS ++ [mkContribution env now text] } := by
  have hempty : text.data.isEmpty = false := by
    cases h : text.data with
    | nil => exact absurd h hne
    | cons c rest => rfl
  simp only [handlePaste, handlePastedText, hempty, Bool.false_eq_true, if_false,
    if_neg hlen, hsim]

/-- The session and state used by the concrete paste scenarios: a small paste
threshold, no prior copy, no focus information, and a handle state whose
`COPY_RELATES_TO_PASTE` holds the stale value 1. -/
def demoPasteEnv : WatchdogEnv where
  config := { defaultConfig with paste_size_threshold := 5 }
  lastCopiedInfo := none
  activeTabFocusInfo := none
  tabFocusWatchInfoHistory := []

/-- A handle state with a stale non-zero `COPY_RELATES_TO_PASTE` factor. -/
def demoStaleState : WatchdogHandleState :=
  { emptyHandleState with COPY_RELATES_TO_PASTE := 1 }

unseal Rat.add Rat.sub Rat.mul Rat.inv Rat.ofScientific in
/-- C1 counterexample: handling a qualifying paste appends one contribution
but does NOT recompute the aggregate factors: the stale
`COPY_RELATES_TO_PASTE = 1` survives the paste, while recomputing it from
scratch (here against field content `""`) yields 0. -/
theorem C1_counterexample :
    (handlePaste demoPasteEnv 0 (some "hello world hello")
      demoStaleState).COPY_PASTE_CONTRIBUTIONS.length = 1 ∧
    (handlePaste demoPasteEnv 0 (some "hello world hello")
      demoStaleState).COPY_RELATES_TO_PASTE = 1 ∧
    (recalculateCopyRelatesToPaste "" (handlePaste demoPasteEnv 0 (some "hello world hello")
      demoStaleState)).COPY_RELATES_TO_PASTE = 0 := by
  refine ⟨by decide, by decide, by decide⟩

/-- C1 (amended): for every paste event carrying non-empty plain text of
length ≥ `paste_size_threshold` whose similarity to the last copy's tokens is
not above 0.9, the paste pipeline appends exactly one immutable Contribution
to `COPY_PASTE_CONTRIBUTIONS` and leaves all four aggregate factors unchanged:
the paste handler itself performs no recomputation (the factors are only
recomputed by the separate input-event handler). -/
theorem C1_paste_appends_one_without_recompute (env : WatchdogEnv) (now : ℚ)
    (text : String) (state : WatchdogHandleState)
    (hne : text.data ≠ [])
    (hlen : ¬ ((text.data.length : ℚ) < env.config.paste_size_threshold))
    (hsim : similarityTooHigh (tokenSimilarityCompare (simpleTokenizer text)
      (match env.lastCopiedInfo with | some ci => ci.tokens | none => [])) = false) :
    handlePaste env now (some text) state =
      { state with COPY_PASTE_CONTRIBUTIONS :=
          state.COPY_PASTE_CONTRIBUTIONS ++ [mkContribution env now text] } :=
  handlePaste_appends env now text state hne hlen hsim

unseal Rat.add Rat.sub Rat.mul Rat.inv Rat.ofScientific in
/-- Witness for C1 at the concrete paste scenario. -/
theorem C1_paste_appends_one_without_recompute_witness :
    handlePaste demoPasteEnv 0 (some "hello world hello") demoStaleState =
      { demoStaleState with COPY_PASTE_CONTRIBUTIONS :=
          demoStaleState.COPY_PASTE_CONTRIBUTIONS ++
            [mkContribution demoPasteEnv 0 "hello world hello"] } :=
  C1_paste_appends_one_without_recompute demoPasteEnv 0 "hello world hello" demoStaleState
    (by decide) (by decide) (by decide)

/-- The containment ratio is non-negative. -/
theorem tokenContainmentCompare_nonneg (a b : List String) :
    0 ≤ tokenContainmentCompare a b :=
  div_nonneg (Nat.cast_nonneg _) (Nat.cast_nonneg _)

/-- The containment ratio is at most 1. -/
theorem tokenContainmentCompare_le_one (a b : List String) :
    tokenContainmentCompare a b ≤ 1 := by
  unfold tokenContainmentCompare
  rcases Nat.eq_zero_or_pos (b.dedup.length) with h | h
  · simp [h]
  · apply div_le_one_of_le₀
    · exact_mod_cast List.length_filter_le _ _
    · positivity

/-- The contribution's containment is non-negative. -/
theorem mkContribution_containment_nonneg (env : WatchdogEnv) (now : ℚ) (text : String) :
    0 ≤ (mkContribution env now text).containment := by
  rcases hl : env.lastCopiedInfo with _ | ci
  · simp only [mkContribution, hl]
    exact le_refl 0
  · simp only [mkContribution, hl]
    by_cases h : ci.tokens.length ≠ 0
    · rw [if_pos h]
      exact tokenContainmentCompare_nonneg _ _
    · rw [if_neg h]

/-- The contribution's containment is at most 1. -/
theorem mkContribution_containment_le_one (env : WatchdogEnv) (now : ℚ) (text : String) :
    (mkContribution env now text).containment ≤ 1 := by
  rcases hl : env.lastCopiedInfo with _ | ci
  · simp only [mkContribution, hl]
    exact zero_le_one
  · simp only [mkContribution, hl]
    by_cases h : ci.tokens.length ≠ 0
    · rw [if_pos h]
      exact tokenContainmentCompare_le_one _ _
    · rw [if_neg h]
      exact zero_le_one

/-- The copy time-decay value is non-negative when the configured floor is. -/
theorem relatedCopyTimeInfo_snd_nonneg (cfg : WatchdogConfig) (lci : Option CopiedInfo)
    (now : ℚ) (h : 0 ≤ cfg.weights.min_copy_event_time_weight) :
    0 ≤ (relatedCopyTimeInfo cfg lci now).2 := by
  unfold relatedCopyTimeInfo
  cases lci with
  | none => exact le_refl 0
  | some ci =>
    simp only []
    split
    · split
      · exact h
      · next hflt => exact le_trans h (not_lt.mp hflt)
    · exact le_refl 0

/-- The copy factor is non-negative when the configured floor is. -/
theorem copyFactorValue_nonneg (cfg : WatchdogConfig) (lci : Option CopiedInfo)
    (now : ℚ) (h : 0 ≤ cfg.weights.min_copy_event_time_weight) :
    0 ≤ copyFactorValue cfg lci now := by
  unfold copyFactorValue
  apply mul_nonneg
  · split
    · exact zero_le_one
    · exact le_refl 0
  · exact relatedCopyTimeInfo_snd_nonneg cfg lci now h

/-- The tab time-decay value is non-negative when the configured floor is. -/
theorem recentTabSwitchInfo_snd_nonneg (cfg : WatchdogConfig)
    (active : Option TabFocusWatchInfo) (now : ℚ)
    (h : 0 ≤ cfg.weights.min_tab_event_time_weight) :
    0 ≤ (recentTabSwitchInfo cfg active now).2 := by
  unfold recentTabSwitchInfo
  cases active with
  | none => exact le_refl 0
  | some info =>
    simp only []
    split
    · split
      · exact h
      · next hflt => exact le_trans h (not_lt.mp hflt)
    · exact le_refl 0

/-- The tab-switch factor is non-negative when the configured floor is. -/
theorem tabSwitchFactorValue_nonneg (cfg : WatchdogConfig)
    (active : Option TabFocusWatchInfo) (now : ℚ)
    (h : 0 ≤ cfg.weights.min_tab_event_time_weight) :
    0 ≤ tabSwitchFactorValue cfg active now := by
  unfold tabSwitchFactorValue
  apply mul_nonneg
  · split
    · exact zero_le_one
    · exact le_refl 0
  · exact recentTabSwitchInfo_snd_nonneg cfg active now h

/-- The copy time-decay value is at most 1 when the floor is, the window is
positive, and the copy does not lie in the future. -/
theorem relatedCopyTimeInfo_snd_le_one (cfg : WatchdogConfig) (lci : Option CopiedInfo)
    (now : ℚ) (h1 : cfg.weights.min_copy_event_time_weight ≤ 1)
    (hw : 0 < cfg.settings.relevant_copy_event_minutes)
    (hts : ∀ ci, lci = some ci → ci.timestamp ≤ now) :
    (relatedCopyTimeInfo cfg lci now).2 ≤ 1 := by
  unfold relatedCopyTimeInfo
  cases lci with
  | none => exact zero_le_one
  | some ci =>
    simp only []
    split
    · split
      · exact h1
      · have htd : 0 ≤ now - ci.timestamp := by
          have := hts ci rfl
          linarith
        have hwpos : 0 < cfg.settings.relevant_copy_event_minutes * 60 * 1000 := by
          nlinarith
        have hq : 0 ≤ (now - ci.timestamp) /
            (cfg.settings.relevant_copy_event_minutes * 60 * 1000) :=
          div_nonneg htd (le_of_lt hwpos)
        linarith
    · exact zero_le_one

/-- The copy factor is at most 1 under the same conditions. -/
theorem copyFactorValue_le_one (cfg : WatchdogConfig) (lci : Option CopiedInfo)
    (now : ℚ) (h0 : 0 ≤ cfg.weights.min_copy_event_time_weight)
    (h1 : cfg.weights.min_copy_event_time_weight ≤ 1)
    (hw : 0 < cfg.settings.relevant_copy_event_minutes)
    (hts : ∀ ci, lci = some ci → ci.timestamp ≤ now) :
    copyFactorValue cfg lci now ≤ 1 := by
  unfold copyFactorValue
  have hv0 := relatedCopyTimeInfo_snd_nonneg cfg lci now h0
  have hv1 := relatedCopyTimeInfo_snd_le_one cfg lci now h1 hw hts
  split
  · rw [one_mul]
    exact hv1
  · rw [zero_mul]
    exact zero_le_one

/-- The tab time-decay value is at most 1 when the floor is, the window is
positive, and the open interval does not start in the future. -/
theorem recentTabSwitchInfo_snd_le_one (cfg : WatchdogConfig)
    (active : Option TabFocusWatchInfo) (now : ℚ)
    (h1 : cfg.weights.min_tab_event_time_weight ≤ 1)
    (hw : 0 < cfg.settings.relevant_tab_in_out_event_minutes)
    (hfi : ∀ info, active = some info → info.focused_in ≤ now) :
    (recentTabSwitchInfo cfg active now).2 ≤ 1 := by
  unfold recentTabSwitchInfo
  cases active with
  | none => exact zero_le_one
  | some info =>
    simp only []
    split
    · split
      · exact h1
      · have htd : 0 ≤ now - info.focused_in := by
          have := hfi info rfl
          linarith
        have hwpos : 0 < cfg.settings.relevant_tab_in_out_event_minutes * 60 * 1000 := by
          nlinarith
        have hq : 0 ≤ (now - info.focused_in) /
            (cfg.settings.relevant_tab_in_out_event_minutes * 60 * 1000) :=
          div_nonneg htd (le_of_lt hwpos)
        linarith
    · exact zero_le_one

/-- The tab-switch factor is at most 1 under the same conditions. -/
theorem tabSwitchFactorValue_le_one (cfg : WatchdogConfig)
    (active : Option TabFocusWatchInfo) (now : ℚ)
    (h0 : 0 ≤ cfg.weights.min_tab_event_time_weight)
    (h1 : cfg.weights.min_tab_event_time_weight ≤ 1)
    (hw : 0 < cfg.settings.relevant_tab_in_out_event_minutes)
    (hfi : ∀ info, active = some info → info.focused_in ≤ now) :
    tabSwitchFactorValue cfg active now ≤ 1 := by
  unfold tabSwitchFactorValue
  have hv0 := recentTabSwitchInfo_snd_nonneg cfg active now h0
  have hv1 := recentTabSwitchInfo_snd_le_one cfg active now h1 hw hfi
  split
  · rw [one_mul]
    exact hv1
  · rw [zero_mul]
    exact zero_le_one

/-- The contribution's paste score is the product of its three stored factors
(definitional in the source record construction). -/
theorem mkContribution_pasteScore_eq (env : WatchdogEnv) (now : ℚ) (text : String) :
    (mkContribution env now text).pasteScore =
      (mkContribution env now text).containment * (mkContribution env now text).copyFactor *
        (mkContribution env now text).tabSwitchFactor := rfl

/-- The contribution's copy factor is the pipeline's `foundRelatedCopyFactor`. -/
theorem mkContribution_copyFactor_eq (env : WatchdogEnv) (now : ℚ) (text : String) :
    (mkContribution env now text).copyFactor =
      copyFactorValue env.config env.lastCopiedInfo now := rfl

/-- The contribution's tab factor is the pipeline's `switchedTabsRecentlyFactor`. -/
theorem mkContribution_tabFactor_eq (env : WatchdogEnv) (now : ℚ) (text : String) :
    (mkContribution env now text).tabSwitchFactor =
      tabSwitchFactorValue env.config env.activeTabFocusInfo now := rfl

/-- The contribution's AI score is `findAISignatures(text, 1)`. -/
theorem mkContribution_aiScore_eq (env : WatchdogEnv) (now : ℚ) (text : String) :
    (mkContribution env now text).aiScore = findAISignatures text 1 := rfl

/-- The contribution's final score is the AI combination rule applied to its
stored fields. -/
theorem mkContribution_score_eq (env : WatchdogEnv) (now : ℚ) (text : String) :
    (mkContribution env now text).score =
      (if (mkContribution env now text).aiScore ≥ (mkContribution env now text).pasteScore then
        (mkContribution env now text).pasteScore * (mkContribution env now text).aiScore
      else (mkContribution env now text).pasteScore) := rfl

/-- `findAISignatures` is binary: it returns 0 or 1. -/
theorem findAISignatures_eq_zero_or_one (text : String) (treshold : ℚ) :
    findAISignatures text treshold = 0 ∨ findAISignatures text treshold = 1 := by
  simp only [findAISignatures]
  split
  · right
    rfl
  · left
    rfl

/-- C2: for every qualifying paste, the created contribution's `pasteScore` is
`containment × copyFactor × tabSwitchFactor` — non-zero exactly when all three
are positive (given non-negative configured floors) — its `aiScore` is
`findAISignatures(text, 1)`, and its final `score` is
`pasteScore × aiScore` when `aiScore ≥ pasteScore` and `pasteScore` otherwise. -/
theorem C2_contribution_score_formula (env : WatchdogEnv) (now : ℚ) (text : String)
    (state : WatchdogHandleState)
    (hne : text.data ≠ [])
    (hlen : ¬ ((text.data.length : ℚ) < env.config.paste_size_threshold))
    (hsim : similarityTooHigh (tokenSimilarityCompare (simpleTokenizer text)
      (match env.lastCopiedInfo with | some ci => ci.tokens | none => [])) = false)
    (hmc : 0 ≤ env.config.weights.min_copy_event_time_weight)
    (hmt : 0 ≤ env.config.weights.min_tab_event_time_weight) :
    (handlePaste env now (some text) state).COPY_PASTE_CONTRIBUTIONS =
      state.COPY_PASTE_CONTRIBUTIONS ++ [mkContribution env now text] ∧
    (mkContribution env now text).pasteScore =
      (mkContribution env now text).containment * (mkContribution env now text).copyFactor *
        (mkContribution env now text).tabSwitchFactor ∧
    (mkContribution env now text).aiScore = findAISignatures text 1 ∧
    (mkContribution env now text).score =
      (if (mkContribution env now text).aiScore ≥ (mkContribution env now text).pasteScore then
        (mkContribution env now text).pasteScore * (mkContribution env now text).aiScore
      else (mkContribution env now text).pasteScore) ∧
    ((mkContribution env now text).pasteScore ≠ 0 ↔
      (0 < (mkContribution env now text).containment ∧
        0 < (mkContribution env now text).copyFactor ∧
        0 < (mkContribution env now text).tabSwitchFactor)) := by
  refine ⟨?_, mkContribution_pasteScore_eq env now text, mkContribution_aiScore_eq env now text,
    mkContribution_score_eq env now text, ?_⟩
  · rw [handlePaste_appends env now text state hne hlen hsim]
  · have hpos : ∀ x : ℚ, 0 ≤ x → (x ≠ 0 ↔ 0 < x) := fun x hx =>
      ⟨fun hne0 => lt_of_le_of_ne hx (Ne.symm hne0), fun hlt => ne_of_gt hlt⟩
    have hc0 := mkContribution_containment_nonneg env now text
    have hf0 : 0 ≤ (mkContribution env now text).copyFactor := by
      rw [mkContribution_copyFactor_eq]
      exact copyFactorValue_nonneg env.config env.lastCopiedInfo now hmc
    have ht0 : 0 ≤ (mkContribution env now text).tabSwitchFactor := by
      rw [mkContribution_tabFactor_eq]
      exact tabSwitchFactorValue_nonneg env.config env.activeTabFocusInfo now hmt
    rw [mkContribution_pasteScore_eq, mul_ne_zero_iff, mul_ne_zero_iff,
      hpos _ hc0, hpos _ hf0, hpos _ ht0, and_assoc]

unseal Rat.add Rat.sub Rat.mul Rat.inv Rat.ofScientific in
/-- Witness for C2: the concrete qualifying paste of `"hello world hello"`
appends its contribution, and that contribution satisfies the score formulas. -/
theorem C2_contribution_score_formula_witness :
    (handlePaste demoPasteEnv 0 (some "hello world hello")
        demoStaleState).COPY_PASTE_CONTRIBUTIONS =
      demoStaleState.COPY_PASTE_CONTRIBUTIONS ++
        [mkContribution demoPasteEnv 0 "hello world hello"] ∧
    (mkContribution demoPasteEnv 0 "hello world hello").pasteScore =
      (mkContribution demoPasteEnv 0 "hello world hello").containment *
        (mkContribution demoPasteEnv 0 "hello world hello").copyFactor *
        (mkContribution demoPasteEnv 0 "hello world hello").tabSwitchFactor ∧
    (mkContribution demoPasteEnv 0 "hello world hello").aiScore =
      findAISignatures "hello world hello" 1 ∧
    (mkContribution demoPasteEnv 0 "hello world hello").score =
      (if (mkContribution demoPasteEnv 0 "hello world hello").aiScore ≥
          (mkContribution demoPasteEnv 0 "hello world hello").pasteScore then
        (mkContribution demoPasteEnv 0 "hello world hello").pasteScore *
          (mkContribution demoPasteEnv 0 "hello world hello").aiScore
      else (mkContribution demoPasteEnv 0 "hello world hello").pasteScore) ∧
    ((mkContribution demoPasteEnv 0 "hello world hello").pasteScore ≠ 0 ↔
      (0 < (mkContribution demoPasteEnv 0 "hello world hello").containment ∧
        0 < (mkContribution demoPasteEnv 0 "hello world hello").copyFactor ∧
        0 < (mkContribution demoPasteEnv 0 "hello world hello").tabSwitchFactor)) :=
  C2_contribution_score_formula demoPasteEnv 0 "hello world hello" demoStaleState
    (by decide) (by decide) (by decide) (by norm_num [demoPasteEnv, defaultConfig])
    (by norm_num [demoPasteEnv, defaultConfig])

/-- C10: since `findAISignatures` returns only 0 or 1 and the paste score lies
in `[0, 1]` (under sane configuration floors/windows and non-future event
timestamps), the combination rule always yields `score = pasteScore`: the AI
signal never changes a contribution's final score. -/
theorem C10_ai_never_changes_final_score (env : WatchdogEnv) (now : ℚ) (text : String)
    (hmc0 : 0 ≤ env.config.weights.min_copy_event_time_weight)
    (hmc1 : env.config.weights.min_copy_event_time_weight ≤ 1)
    (hmt0 : 0 ≤ env.config.weights.min_tab_event_time_weight)
    (hmt1 : env.config.weights.min_tab_event_time_weight ≤ 1)
    (hwc : 0 < env.config.settings.relevant_copy_event_minutes)
    (hwt : 0 < env.config.settings.relevant_tab_in_out_event_minutes)
    (hts : ∀ ci, env.lastCopiedInfo = some ci → ci.timestamp ≤ now)
    (hfi : ∀ info, env.activeTabFocusInfo = some info → info.focused_in ≤ now) :
    (mkContribution env now text).score = (mkContribution env now text).pasteScore := by
  have hc0 := mkContribution_containment_nonneg env now text
  have hc1 := mkContribution_containment_le_one env now text
  have hf0 : 0 ≤ (mkContribution env now text).copyFactor := by
    rw [mkContribution_copyFactor_eq]
    exact copyFactorValue_nonneg env.config env.lastCopiedInfo now hmc0
  have hf1 : (mkContribution env now text).copyFactor ≤ 1 := by
    rw [mkContribution_copyFactor_eq]
    exact copyFactorValue_le_one env.config env.lastCopiedInfo now hmc0 hmc1 hwc hts
  have ht0 : 0 ≤ (mkContribution env now text).tabSwitchFactor := by
    rw [mkContribution_tabFactor_eq]
    exact tabSwitchFactorValue_nonneg env.config env.activeTabFocusInfo now hmt0
  have ht1 : (mkContribution env now text).tabSwitchFactor ≤ 1 := by
    rw [mkContribution_tabFactor_eq]
    exact tabSwitchFactorValue_le_one env.config env.activeTabFocusInfo now hmt0 hmt1 hwt hfi
  have hps0 : 0 ≤ (mkContribution env now text).pasteScore := by
    rw [mkContribution_pasteScore_eq]
    exact mul_nonneg (mul_nonneg hc0 hf0) ht0
  have hps1 : (mkContribution env now text).pasteScore ≤ 1 := by
    rw [mkContribution_pasteScore_eq]
    exact mul_le_one₀ (mul_le_one₀ hc1 hf0 hf1) ht0 ht1
  rw [mkContribution_score_eq, mkContribution_aiScore_eq]
  rcases findAISignatures_eq_zero_or_one text 1 with hai | hai
  · rw [hai]
    by_cases hz : (mkContribution env now text).pasteScore = 0
    · rw [if_pos (by rw [hz]), hz, mul_zero]
    · rw [if_neg]
      intro hge
      exact hz (le_antisymm (by linarith) hps0)
  · rw [hai, if_pos (by linarith), mul_one]

/-- Witness for C10: under the default configuration with no prior copy and no
open focus interval, the concrete contribution's score equals its paste score. -/
theorem C10_ai_never_changes_final_score_witness :
    (mkContribution demoPasteEnv 0 "hello world hello").score =
      (mkContribution demoPasteEnv 0 "hello world hello").pasteScore :=
  C10_ai_never_changes_final_score demoPasteEnv 0 "hello world hello"
    (by norm_num [demoPasteEnv, defaultConfig]) (by norm_num [demoPasteEnv, defaultConfig])
    (by norm_num [demoPasteEnv, defaultConfig]) (by norm_num [demoPasteEnv, defaultConfig])
    (by norm_num [demoPasteEnv, defaultConfig]) (by norm_num [demoPasteEnv, defaultConfig])
    (fun ci h => by simp [demoPasteEnv] at h) (fun info h => by simp [demoPasteEnv] at h)

/-- A not-yet-initialized handle on a plain `div` element (not text-capable). -/
def divHandle : HandleModel where
  element := { tagName := "DIV", typeAttr := "", isContentEditable := false }
  isInitialized := false
  doNotSetupEvents := false
  state := emptyHandleState
  eventsAttached := false

/-- A not-yet-initialized handle on a `textarea` element. -/
def textareaHandle : HandleModel where
  element := { tagName := "TEXTAREA", typeAttr := "", isContentEditable := false }
  isInitialized := false
  doNotSetupEvents := false
  state := emptyHandleState
  eventsAttached := false

/-- C4 counterexample: a failing `initialize` does NOT leave the field in a
not-initialized state.  With the session monitoring and a non-text-capable
element, `initialize` signals the validation error — but `isInitialized` was
already set to `true` before the element check, so the handle is left marked
initialized. -/
theorem C4_counterexample :
    (initializeModel true divHandle false demoPasteEnv 0 "" none).1 =
      .error .invalidFieldType ∧
    (initializeModel true divHandle false demoPasteEnv 0 "" none).2.isInitialized = true ∧
    divHandle.isInitialized = false := by
  refine ⟨rfl, rfl, rfl⟩

/-- C4 (amended): if `initialize` fails — the session is not monitoring, the
element is not text-capable, or the async state loader rejects — it signals
the error to the caller and never activates the handle (no event listeners are
attached and the stored contribution state is untouched); however, except in
the not-monitoring case (which throws before any mutation and leaves the
handle exactly as it was), the `isInitialized` flag has already been set to
`true` by the time the failure is signalled, so the field is not left in a
"not initialized" state. -/
theorem C4_initialize_failure_behaviour (h : HandleModel) (dnse : Bool)
    (env : WatchdogEnv) (now : ℚ) (content : String)
    (loader : Option (Except Unit WatchdogHandleState)) :
    (initializeModel false h dnse env now content loader =
      (.error .uninitializedSession, h)) ∧
    (isTextCapable h.element = false →
      initializeModel true h dnse env now content loader =
        (.error .invalidFieldType,
          { h with isInitialized := true, doNotSetupEvents := dnse })) ∧
    (isTextCapable h.element = true → loader = some (.error ()) →
      initializeModel true h dnse env now content loader =
        (.error .loaderRejected,
          { h with isInitialized := true, doNotSetupEvents := dnse })) := by
  refine ⟨rfl, fun hcap => ?_, fun hcap hload => ?_⟩
  · simp only [initializeModel, Bool.not_true, Bool.false_eq_true, if_false, hcap]
  · simp only [initializeModel, Bool.not_true, Bool.false_eq_true, if_false, hcap, if_true,
      hload, loadStateModel]

/-- Witness for C4: the three concrete failure scenarios — not monitoring,
`div` element, rejecting loader on a `textarea` — behave as stated. -/
theorem C4_initialize_failure_behaviour_witness :
    (initializeModel false divHandle false demoPasteEnv 0 "" none =
      (.error .uninitializedSession, divHandle)) ∧
    (initializeModel true divHandle false demoPasteEnv 0 "" none =
      (.error .invalidFieldType,
        { divHandle with isInitialized := true, doNotSetupEvents := false })) ∧
    (initializeModel true textareaHandle false demoPasteEnv 0 ""
        (some (.error ())) =
      (.error .loaderRejected,
        { textareaHandle with isInitialized := true, doNotSetupEvents := false })) :=
  ⟨(C4_initialize_failure_behaviour divHandle false demoPasteEnv 0 "" none).1,
    (C4_initialize_failure_behaviour divHandle false demoPasteEnv 0 "" none).2.1 (by decide),
    (C4_initialize_failure_behaviour textareaHandle false demoPasteEnv 0 ""
      (some (.error ()))).2.2 (by decide) rfl⟩
